import Mathlib

/-!
Verification of the spaced-repetition scheduler of the Language-Learning-App
repository (`src/lib/spacedRepetition.ts`), checked against its
natural-language specification.

Modelling choices (shallow embedding):
* JavaScript numbers are modelled as exact rationals (`ℚ`).  The decimal
  constants of the source (2.5, 0.05, 1.3, 3.2, ...) are exact in `ℚ`.
* `Math.round` rounds half away from zero towards +∞ in JavaScript; over `ℚ`
  this is `⌊x + 1/2⌋`, modelled by `jsRound`.
* Timestamps are integer milliseconds since the epoch.  The source builds the
  due date with `due.setDate(now.getDate() + interval)`, i.e. calendar-day
  addition preserving the time of day; for a fixed UTC offset this is exactly
  `now + interval * 86400000` milliseconds, which is how `nextReview` models
  it (`msPerDay = 86400000`).
* The source reads the wall clock internally (`const now = new Date()`).
  The ambient clock reading at call time is made explicit as the `nowMs`
  argument of the Lean model, so that dependence on the clock is visible.
* Nullable / optional numeric fields of `ReviewCard` are `Option ℚ`; the
  null-coalescing defaulting of the source is `Option.getD`.
-/

namespace SpacedRepetition

/-- Review grade, the closed three-way enumeration of the source
(`type Grade = "again" | "hard" | "good"`). -/
inductive Grade where
  | again
  | hard
  | good
  deriving DecidableEq, Repr

/-- A lesson word as in `types/domain.ts`; the scheduler never reads it, but
it is part of the `ReviewCard` record that is passed in. -/
structure LessonWord where
  id : String
  lesson_id : String
  term : String
  translation : Option String
  note : Option String
  created_at : Option String
  deriving DecidableEq, Repr

/-- The `ReviewCard` input record of `nextReview`, from `types/domain.ts`.
Numeric fields are `number | null | undefined` in the source, hence
`Option ℚ` here; `due_at` is an ISO timestamp string. -/
structure ReviewCard where
  id : String
  lesson_word_id : String
  student_id : String
  ease : Option ℚ
  interval_days : Option ℚ
  repetitions : Option ℚ
  due_at : Option String
  total_success : Option ℚ
  total_fail : Option ℚ
  lesson_word : Option LessonWord
  deriving DecidableEq, Repr

/-- The output record `NextReview` of the source.  `dueAt` is an ISO string in
the source, produced by `toISOString` from the computed millisecond value;
here we keep the milliseconds (`dueAtMs`), an injective image of the string.
`intervalDays` is an integer: all three assignments of the source (1, 3,
`Math.round (...)`) produce integers. -/
structure NextReview where
  ease : ℚ
  intervalDays : ℤ
  repetitions : ℚ
  dueAtMs : ℤ
  totalSuccess : ℚ
  totalFail : ℚ
  deriving DecidableEq, Repr

/-- `clamp` from the source:
`const clamp = (value, min, max) => Math.max(min, Math.min(max, value))`. -/
def clamp (value lo hi : ℚ) : ℚ :=
  max lo (min hi value)

/-- JavaScript `Math.round`: round half towards +∞, i.e. `⌊x + 1/2⌋`. -/
def jsRound (x : ℚ) : ℤ :=
  ⌊x + 1/2⌋

/-- Milliseconds per day; `setDate` calendar-day addition at a fixed UTC
offset advances the timestamp by this much per day. -/
def msPerDay : ℤ := 86400000

/-- The scheduler `nextReview` of `src/lib/spacedRepetition.ts`, translated
statement by statement.  `nowMs` is the ambient wall-clock reading that the
source obtains internally via `new Date()`. -/
def nextReview (card : ReviewCard) (grade : Grade) (nowMs : ℤ) : NextReview :=
  let prevEase := card.ease.getD 2.5
  let prevInterval := card.interval_days.getD 0
  let prevReps := card.repetitions.getD 0
  let prevSuccess := card.total_success.getD 0
  let prevFail := card.total_fail.getD 0
  match grade with
  | Grade.again =>
      let ease := clamp (prevEase - 0.2) 1.3 3.0
      let repetitions : ℚ := 0
      let interval : ℤ := 1
      let totalFail := prevFail + 1
      { ease := ease
        intervalDays := interval
        repetitions := repetitions
        dueAtMs := nowMs + interval * msPerDay
        totalSuccess := prevSuccess
        totalFail := totalFail }
  | g =>
      let ease := if g = Grade.good then prevEase + 0.05 else prevEase - 0.05
      let ease := clamp ease 1.3 3.2
      let repetitions := prevReps + 1
      let interval : ℤ :=
        if repetitions = 1 then 1
        else if repetitions = 2 then 3
        else jsRound (prevInterval * ease)
      let totalSuccess := prevSuccess + 1
      { ease := ease
        intervalDays := interval
        repetitions := repetitions
        dueAtMs := nowMs + interval * msPerDay
        totalSuccess := totalSuccess
        totalFail := prevFail }

/-- A card with every schedulable field populated with the defaults of the source
(`?? 2.5`, `?? 0`, ...); used to state the defaulting claim. -/
def populated (card : ReviewCard) : ReviewCard :=
  { card with
    ease := some (card.ease.getD 2.5)
    interval_days := some (card.interval_days.getD 0)
    repetitions := some (card.repetitions.getD 0)
    total_success := some (card.total_success.getD 0)
    total_fail := some (card.total_fail.getD 0) }

/-- A concrete freshly created card (the lifecycle defaults of the spec),
used for witnesses and scenarios. -/
def freshCard : ReviewCard :=
  { id := "card-1"
    lesson_word_id := "word-1"
    student_id := "student-1"
    ease := some 2.5
    interval_days := some 0
    repetitions := some 0
    due_at := some "2024-01-01T00:00:00.000Z"
    total_success := some 0
    total_fail := some 0
    lesson_word := none }

/-- Write the fields of a scheduler result back into a card, as the review
session controller persists them between consecutive reviews. -/
def applyResult (card : ReviewCard) (r : NextReview) : ReviewCard :=
  { card with
    ease := some r.ease
    interval_days := some (r.intervalDays : ℚ)
    repetitions := some r.repetitions
    total_success := some r.totalSuccess
    total_fail := some r.totalFail }

/-- Midnight UTC of 2024-01-01 in epoch milliseconds. -/
def jan1 : ℤ := 1704067200000

/-- Scenario 1 of the spec: grade `good` on a fresh card at 2024-01-01. -/
def scenario1 : NextReview := nextReview freshCard Grade.good jan1

/-- The card state persisted after Scenario 1. -/
def card1 : ReviewCard := applyResult freshCard scenario1

/-- Scenario 2 of the spec: grade `good` again at 2024-01-02. -/
def scenario2 : NextReview := nextReview card1 Grade.good (jan1 + msPerDay)

/-- The card state persisted after Scenario 2. -/
def card2 : ReviewCard := applyResult card1 scenario2

/-- Scenario 3 of the spec: grade `good` a third time at 2024-01-05. -/
def scenario3 : NextReview := nextReview card2 Grade.good (jan1 + 4 * msPerDay)

/-- A card identical to `freshCard` in all schedulable fields but differing in
identity fields, for the non-interference witness. -/
def otherCard : ReviewCard :=
  { freshCard with
    id := "card-2"
    lesson_word_id := "word-9"
    student_id := "student-7"
    due_at := none
    lesson_word := some
      { id := "word-9"
        lesson_id := "lesson-3"
        term := "собака"
        translation := some "dog"
        note := none
        created_at := none } }

/-- Helper: in every branch the due timestamp is the clock reading plus the
returned interval in days. -/
theorem nextReview_dueAtMs (card : ReviewCard) (grade : Grade) (nowMs : ℤ) :
    (nextReview card grade nowMs).dueAtMs
      = nowMs + (nextReview card grade nowMs).intervalDays * msPerDay := by
  cases grade <;> rfl

/-- Helper: closed form of the `again` branch of `nextReview`. -/
theorem nextReview_again_eq (card : ReviewCard) (nowMs : ℤ) :
    nextReview card Grade.again nowMs =
      { ease := clamp (card.ease.getD 2.5 - 0.2) 1.3 3.0
        intervalDays := 1
        repetitions := 0
        dueAtMs := nowMs + 1 * msPerDay
        totalSuccess := card.total_success.getD 0
        totalFail := card.total_fail.getD 0 + 1 } := rfl

/-- Helper: closed form of the `good` branch of `nextReview`. -/
theorem nextReview_good_eq (card : ReviewCard) (nowMs : ℤ) :
    nextReview card Grade.good nowMs =
      { ease := clamp (card.ease.getD 2.5 + 0.05) 1.3 3.2
        intervalDays :=
          if card.repetitions.getD 0 + 1 = 1 then 1
          else if card.repetitions.getD 0 + 1 = 2 then 3
          else jsRound (card.interval_days.getD 0
            * clamp (card.ease.getD 2.5 + 0.05) 1.3 3.2)
        repetitions := card.repetitions.getD 0 + 1
        dueAtMs := nowMs +
          (if card.repetitions.getD 0 + 1 = 1 then 1
           else if card.repetitions.getD 0 + 1 = 2 then 3
           else jsRound (card.interval_days.getD 0
             * clamp (card.ease.getD 2.5 + 0.05) 1.3 3.2)) * msPerDay
        totalSuccess := card.total_success.getD 0 + 1
        totalFail := card.total_fail.getD 0 } := rfl

/-- Helper: closed form of the `hard` branch of `nextReview`. -/
theorem nextReview_hard_eq (card : ReviewCard) (nowMs : ℤ) :
    nextReview card Grade.hard nowMs =
      { ease := clamp (card.ease.getD 2.5 - 0.05) 1.3 3.2
        intervalDays :=
          if card.repetitions.getD 0 + 1 = 1 then 1
          else if card.repetitions.getD 0 + 1 = 2 then 3
          else jsRound (card.interval_days.getD 0
            * clamp (card.ease.getD 2.5 - 0.05) 1.3 3.2)
        repetitions := card.repetitions.getD 0 + 1
        dueAtMs := nowMs +
          (if card.repetitions.getD 0 + 1 = 1 then 1
           else if card.repetitions.getD 0 + 1 = 2 then 3
           else jsRound (card.interval_days.getD 0
             * clamp (card.ease.getD 2.5 - 0.05) 1.3 3.2)) * msPerDay
        totalSuccess := card.total_success.getD 0 + 1
        totalFail := card.total_fail.getD 0 } := rfl

/-- Claim C1 (amended): the source reads the wall clock internally
(`const now = new Date()`), so the clock reading is not a parameter of the
TypeScript function; relative to a fixed ambient clock reading the scheduler
is deterministic — equal card, grade and clock reading give bit-identical
output, in particular an identical dueAt. -/
theorem nextReview_deterministic_given_clock (card : ReviewCard) (grade : Grade)
    (t u : ℤ) (h : t = u) :
    nextReview card grade t = nextReview card grade u := by
  rw [h]

/-- Witness for `nextReview_deterministic_given_clock` at a concrete input. -/
theorem nextReview_deterministic_given_clock_witness :
    nextReview freshCard Grade.good jan1 = nextReview freshCard Grade.good jan1 :=
  nextReview_deterministic_given_clock freshCard Grade.good jan1 jan1 rfl

/-- Claim C1 (counterexample): the clock is read internally, so two calls with
identical function inputs (card and grade) made at different wall-clock times
are not bit-identical — the dueAt differs. -/
theorem nextReview_clock_dependence :
    nextReview freshCard Grade.good jan1
      ≠ nextReview freshCard Grade.good (jan1 + msPerDay) := by
  intro h
  have hiv := congrArg NextReview.intervalDays h
  have h2 := congrArg NextReview.dueAtMs h
  rw [nextReview_dueAtMs, nextReview_dueAtMs, ← hiv] at h2
  simp only [jan1, msPerDay] at h2
  omega

/-- Claim C2: for grade `hard` or `good`, the new repetitions is the old plus
one, the new ease is the clamped additive adjustment (+0.05 for `good`,
-0.05 for `hard`, clamped to [1.3, 3.2]), and the new interval is 1 at
repetition count 1, 3 at repetition count 2, and otherwise the JavaScript
rounding of the previous interval times the newly updated ease. -/
theorem nextReview_success_formulas (card : ReviewCard) (grade : Grade) (nowMs : ℤ)
    (h : grade = Grade.hard ∨ grade = Grade.good) :
    (nextReview card grade nowMs).repetitions = card.repetitions.getD 0 + 1
      ∧ (nextReview card grade nowMs).ease
          = clamp (if grade = Grade.good then card.ease.getD 2.5 + 0.05
                   else card.ease.getD 2.5 - 0.05) 1.3 3.2
      ∧ (nextReview card grade nowMs).intervalDays
          = (if (nextReview card grade nowMs).repetitions = 1 then (1 : ℤ)
             else if (nextReview card grade nowMs).repetitions = 2 then 3
             else jsRound (card.interval_days.getD 0 * (nextReview card grade nowMs).ease)) := by
  rcases h with h | h <;> subst h <;> exact ⟨rfl, rfl, rfl⟩

/-- Witness for `nextReview_success_formulas` at a concrete input. -/
theorem nextReview_success_formulas_witness :
    (nextReview freshCard Grade.good jan1).repetitions = freshCard.repetitions.getD 0 + 1
      ∧ (nextReview freshCard Grade.good jan1).ease
          = clamp (if Grade.good = Grade.good then freshCard.ease.getD 2.5 + 0.05
                   else freshCard.ease.getD 2.5 - 0.05) 1.3 3.2
      ∧ (nextReview freshCard Grade.good jan1).intervalDays
          = (if (nextReview freshCard Grade.good jan1).repetitions = 1 then (1 : ℤ)
             else if (nextReview freshCard Grade.good jan1).repetitions = 2 then 3
             else jsRound (freshCard.interval_days.getD 0
                * (nextReview freshCard Grade.good jan1).ease)) :=
  nextReview_success_formulas freshCard Grade.good jan1 (Or.inr rfl)

/-- Claim C3: grade `again` gives ease clamped into [1.3, 3.0] after the 0.2
penalty (ceiling 3.0, not 3.2), resets repetitions to 0 and sets the interval
to 1 day. -/
theorem nextReview_again_resets (card : ReviewCard) (nowMs : ℤ) :
    (nextReview card Grade.again nowMs).ease
        = clamp (card.ease.getD 2.5 - 0.2) 1.3 3.0
      ∧ (nextReview card Grade.again nowMs).repetitions = 0
      ∧ (nextReview card Grade.again nowMs).intervalDays = 1 :=
  ⟨rfl, rfl, rfl⟩

/-- Claim C4: after any call, for every input card and grade, the returned
ease lies in [1.3, 3.2]; and clamp is max-of-min applied to the adjusted
value unconditionally. -/
theorem nextReview_ease_in_range (card : ReviewCard) (grade : Grade) (nowMs : ℤ) :
    (1.3 ≤ (nextReview card grade nowMs).ease
        ∧ (nextReview card grade nowMs).ease ≤ 3.2)
      ∧ ∀ x lo hi : ℚ, clamp x lo hi = max lo (min hi x) := by
  have hb : ∀ x lo hi : ℚ, lo ≤ hi → lo ≤ clamp x lo hi ∧ clamp x lo hi ≤ hi :=
    fun _ _ _ h => ⟨le_max_left _ _, max_le h (min_le_left _ _)⟩
  refine ⟨?_, fun x lo hi => rfl⟩
  cases grade with
  | again =>
      have h := hb (card.ease.getD 2.5 - 0.2) 1.3 3.0 (by norm_num)
      exact ⟨h.1, h.2.trans (by norm_num)⟩
  | hard => exact hb _ 1.3 3.2 (by norm_num)
  | good => exact hb _ 1.3 3.2 (by norm_num)

/-- Claim C5: `again` increments the lifetime failure counter by one and
leaves the success counter unchanged; `hard` and `good` increment the success
counter by one and leave the failure counter unchanged. -/
theorem nextReview_totals (card : ReviewCard) (nowMs : ℤ) :
    ((nextReview card Grade.again nowMs).totalFail = card.total_fail.getD 0 + 1
      ∧ (nextReview card Grade.again nowMs).totalSuccess = card.total_success.getD 0)
    ∧ ((nextReview card Grade.hard nowMs).totalSuccess = card.total_success.getD 0 + 1
      ∧ (nextReview card Grade.hard nowMs).totalFail = card.total_fail.getD 0)
    ∧ ((nextReview card Grade.good nowMs).totalSuccess = card.total_success.getD 0 + 1
      ∧ (nextReview card Grade.good nowMs).totalFail = card.total_fail.getD 0) :=
  ⟨⟨rfl, rfl⟩, ⟨rfl, rfl⟩, ⟨rfl, rfl⟩⟩

/-- Claim C6: for every card, grade and clock reading, the due timestamp
minus the clock reading is exactly the returned interval in days (calendar-day
arithmetic at millisecond precision, preserving the time of day). -/
theorem nextReview_due_consistency (card : ReviewCard) (grade : Grade) (nowMs : ℤ) :
    (nextReview card grade nowMs).dueAtMs - nowMs
      = (nextReview card grade nowMs).intervalDays * msPerDay := by
  rw [nextReview_dueAtMs]
  ring

/-- Claim C7: missing or null numeric fields are replaced by the defaults
2.5 (ease), 0 (interval), 0 (repetitions), 0, 0 (totals) before any
computation — the scheduler is a total function that behaves on any card
exactly as it does on the corresponding fully populated card. -/
theorem nextReview_defaults (card : ReviewCard) (grade : Grade) (nowMs : ℤ) :
    nextReview card grade nowMs = nextReview (populated card) grade nowMs := by
  cases grade <;> rfl

/-- Claim C8: the three `good` reviews of the spec scenarios, starting from a
fresh card at 2024-01-01, 2024-01-02 and 2024-01-05. -/
theorem nextReview_scenarios :
    scenario1 = { ease := 2.55, intervalDays := 1, repetitions := 1,
                    dueAtMs := 1704153600000, totalSuccess := 1, totalFail := 0 }
    ∧ scenario2 = { ease := 2.6, intervalDays := 3, repetitions := 2,
                    dueAtMs := 1704412800000, totalSuccess := 2, totalFail := 0 }
    ∧ scenario3 = { ease := 2.65, intervalDays := 8, repetitions := 3,
                    dueAtMs := 1705104000000, totalSuccess := 3, totalFail := 0 }
    ∧ jsRound (3 * 2.65) = 8 := by
  have h1 : scenario1 = { ease := 2.55, intervalDays := 1, repetitions := 1,
                            dueAtMs := 1704153600000, totalSuccess := 1,
                            totalFail := 0 } := by
    rw [scenario1, nextReview_good_eq]
    norm_num [freshCard, clamp, jan1, msPerDay, NextReview.mk.injEq]
  have h2 : scenario2 = { ease := 2.6, intervalDays := 3, repetitions := 2,
                            dueAtMs := 1704412800000, totalSuccess := 2,
                            totalFail := 0 } := by
    rw [scenario2, card1, h1, nextReview_good_eq]
    norm_num [applyResult, freshCard, clamp, jan1, msPerDay, NextReview.mk.injEq]
  have h3 : scenario3 = { ease := 2.65, intervalDays := 8, repetitions := 3,
                            dueAtMs := 1705104000000, totalSuccess := 3,
                            totalFail := 0 } := by
    rw [scenario3, card2, h2, nextReview_good_eq]
    norm_num [applyResult, freshCard, clamp, jsRound, jan1, msPerDay,
      NextReview.mk.injEq]
  refine ⟨h1, h2, h3, ?_⟩
  norm_num [jsRound]

/-- Claim C9: the output depends only on the five schedulable numeric fields
after defaulting (and the grade and clock); two cards agreeing on those —
whatever their id, student, lesson word or stored due date — get identical
results. -/
theorem nextReview_ignores_identity (c d : ReviewCard) (grade : Grade) (nowMs : ℤ)
    (h1 : c.ease.getD 2.5 = d.ease.getD 2.5)
    (h2 : c.interval_days.getD 0 = d.interval_days.getD 0)
    (h3 : c.repetitions.getD 0 = d.repetitions.getD 0)
    (h4 : c.total_success.getD 0 = d.total_success.getD 0)
    (h5 : c.total_fail.getD 0 = d.total_fail.getD 0) :
    nextReview c grade nowMs = nextReview d grade nowMs := by
  cases grade
  case again => rw [nextReview_again_eq, nextReview_again_eq, h1, h4, h5]
  case hard => rw [nextReview_hard_eq, nextReview_hard_eq, h1, h2, h3, h4, h5]
  case good => rw [nextReview_good_eq, nextReview_good_eq, h1, h2, h3, h4, h5]

/-- Witness for `nextReview_ignores_identity`: two cards differing in id,
student, lesson word and stored due date schedule identically. -/
theorem nextReview_ignores_identity_witness :
    nextReview freshCard Grade.good jan1 = nextReview otherCard Grade.good jan1 :=
  nextReview_ignores_identity freshCard otherCard Grade.good jan1 rfl rfl rfl rfl rfl

/-- Claim C10: with a zero stored interval and at least two prior repetitions,
a successful review computes round(0 times ease) = 0 and leaves the card due
at the review instant itself. -/
theorem nextReview_zero_interval (card : ReviewCard) (grade : Grade) (nowMs : ℤ)
    (hg : grade = Grade.hard ∨ grade = Grade.good)
    (hi : card.interval_days.getD 0 = 0)
    (hr : 2 ≤ card.repetitions.getD 0) :
    (nextReview card grade nowMs).intervalDays = 0
      ∧ (nextReview card grade nowMs).dueAtMs = nowMs := by
  have hn1 : card.repetitions.getD 0 + 1 ≠ 1 := by
    intro h
    have : card.repetitions.getD 0 = 0 := by linarith
    linarith
  have hn2 : card.repetitions.getD 0 + 1 ≠ 2 := by
    intro h
    have : card.repetitions.getD 0 = 1 := by linarith
    linarith
  have hz : ∀ e : ℚ, jsRound ((0 : ℚ) * e) = 0 := by
    intro e
    norm_num [jsRound]
  rcases hg with h | h <;> subst h
  · rw [nextReview_hard_eq]
    simp only [hi, if_neg hn1, if_neg hn2, hz]
    exact ⟨trivial, by ring⟩
  · rw [nextReview_good_eq]
    simp only [hi, if_neg hn1, if_neg hn2, hz]
    exact ⟨trivial, by ring⟩

/-- A card with a zero stored interval and two prior repetitions, for the
zero-interval witness. -/
def matureCard : ReviewCard :=
  { freshCard with repetitions := some 2 }

/-- Witness for `nextReview_zero_interval` at a concrete input. -/
theorem nextReview_zero_interval_witness :
    (nextReview matureCard Grade.good jan1).intervalDays = 0
      ∧ (nextReview matureCard Grade.good jan1).dueAtMs = jan1 :=
  nextReview_zero_interval matureCard Grade.good jan1 (Or.inr rfl) rfl (by norm_num [matureCard, freshCard])

end SpacedRepetition
